import Mathlib

/-!
Verification of the Ghost Agency simulation core.

This file is a shallow embedding, in Lean 4, of the simulation core of the
ghost_agency repository (agents, equipment, missions, regions, rooms,
research, the agency economy, the mission-resolution flow and the daily
tick), translated directly from the Python source:

  * src/ghost_agency/core/config.py       (constants, Status enum)
  * src/ghost_agency/entities/equipment.py
  * src/ghost_agency/entities/agent.py
  * src/ghost_agency/entities/ghost.py
  * src/ghost_agency/entities/mission.py
  * src/ghost_agency/core/room.py
  * src/ghost_agency/core/research.py
  * src/ghost_agency/core/agency.py
  * src/ghost_agency/core/world_map.py    (Region)
  * src/ghost_agency/main.py              (Game.run_mission, Game.daily_update)

Modelling conventions:
  * Python ints are `Int` (or `Nat` where the source value is a count that
    is never negative); Python floats that carry game arithmetic
    (`fear_mult`, `success_chance`, `random.random()`) are `ℚ`.
  * Python `int(x)` (truncation toward zero) is `pyTrunc`.
  * In-place mutation is explicit state passing: a mutating method becomes
    a function `State → State` (paired with its returned value when the
    Python method returns one).
  * Randomness is passed in as explicit parameters (the outcome roll, the
    breakdown coin, pre-rolled stats, the regenerated ghost), mirroring the
    calls to `random.random()` / `random.randint` / `Ghost.random` in the
    source.
  * Python's `list.remove` / `in` (first occurrence, dataclass equality)
    are `List.erase` / membership over types with decidable equality.
  * Log strings are modelled as a structured `LogEntry` type carrying the
    same data the Python f-strings render.
-/

namespace GhostAgency

/-- Truncation toward zero of a rational, the behaviour of Python `int()`
on a float. -/
def pyTrunc (q : ℚ) : Int := Int.tdiv q.num (q.den : Int)

/-- Status enum from core/config.py (shared by agents and missions). -/
inductive Status where
  | available
  | on_mission
  | resting
  | injured
  | deceased
  | in_progress
  | completed
  | failed
deriving DecidableEq, Repr

/-- EquipmentType enum from entities/equipment.py. -/
inductive EquipmentType where
  | weapon
  | armor
  | tool
  | trinket
deriving DecidableEq, Repr

/-- Equipment dataclass from entities/equipment.py (the fields used by the
simulation core; `stats` is the Dict[str, int] of stat deltas). -/
structure Equipment where
  name : String
  type : EquipmentType
  stats : List (String × Int)
  abilities : List String
  cost : Int
  level_requirement : Int
deriving DecidableEq, Repr

/-- Sum of the values of an equipment's stats dict (`sum(equipment.stats.values())`). -/
def Equipment.statSum (e : Equipment) : Int := (e.stats.map Prod.snd).sum

/-- The agent's fixed five-stat mapping (config.STAT_NAMES: will, tech,
combat, fear_resist, charisma). A Dict[str, int] over exactly these keys. -/
structure Stats where
  will : Int
  tech : Int
  combat : Int
  fear_resist : Int
  charisma : Int
deriving DecidableEq, Repr

/-- The all-ones stat mapping built by `Agent.__post_init__`
(`{stat: 1 for stat in config.STAT_NAMES}`). -/
def Stats.ones : Stats := ⟨1, 1, 1, 1, 1⟩

/-- Sum of the values of the stat mapping (`sum(self.stats.values())`). -/
def Stats.sum (s : Stats) : Int :=
  s.will + s.tech + s.combat + s.fear_resist + s.charisma

/-- Add one to every stat (the `level_up` loop). -/
def Stats.incrAll (s : Stats) : Stats :=
  ⟨s.will + 1, s.tech + 1, s.combat + 1, s.fear_resist + 1, s.charisma + 1⟩

/-- The equipped mapping `Dict[EquipmentType, Optional[Equipment]]`: one
optional item per slot kind. -/
structure Equipped where
  weapon : Option Equipment
  armor : Option Equipment
  tool : Option Equipment
  trinket : Option Equipment
deriving DecidableEq, Repr

/-- All slots empty (`{type_: None for type_ in EquipmentType}`). -/
def Equipped.empty : Equipped := ⟨none, none, none, none⟩

/-- Dictionary lookup `self.equipped[t]`. -/
def Equipped.get (eq : Equipped) (t : EquipmentType) : Option Equipment :=
  match t with
  | .weapon => eq.weapon
  | .armor => eq.armor
  | .tool => eq.tool
  | .trinket => eq.trinket

/-- Dictionary assignment `self.equipped[t] = v`. -/
def Equipped.set (eq : Equipped) (t : EquipmentType) (v : Option Equipment) : Equipped :=
  match t with
  | .weapon => { eq with weapon := v }
  | .armor => { eq with armor := v }
  | .tool => { eq with tool := v }
  | .trinket => { eq with trinket := v }

/-- The equipped items present (`self.equipped.values()` with the `None`
entries skipped, in slot order). -/
def Equipped.items (eq : Equipped) : List Equipment :=
  eq.weapon.toList ++ eq.armor.toList ++ eq.tool.toList ++ eq.trinket.toList

namespace config

/-- Game constants from core/config.py (GameConfig defaults). -/
def MIN_STAT : Int := 1
def MAX_STAT : Int := 10
def MAX_AGENTS : Nat := 8
def MAX_AGENTS_PER_MISSION : Nat := 4
def DAILY_SALARY_PER_AGENT : Int := 10
def STARTING_FUNDS : Int := 5000
def STARTING_REPUTATION : Int := 50
def BASE_MISSION_REWARD : Int := 1000
def DEFAULT_ROOM_CAPACITY : Nat := 4
def DEFAULT_MAINTENANCE_COST : Int := 50
def MAX_ROOM_LEVEL : Nat := 3
def MAX_ROOMS : Nat := 5
def ROOM_CAPACITY_INCREASE : Nat := 2
def MAINTENANCE_COST_INCREASE : Int := 25
def UPGRADE_MAINTENANCE_COST : Int := 10
def RESEARCH_PROJECT_COST : Int := 100

end config

/-- Agent dataclass from entities/agent.py. `agent_class` carries the class
identifier; `injury_days_left` is the optional injured-day counter. -/
structure Agent where
  name : String
  level : Nat
  experience : Nat
  money : Int
  status : Status
  stats : Stats
  inventory : List Equipment
  equipped : Equipped
  agent_class : Option String
  stress : Int
  injury_days_left : Option Int
deriving DecidableEq, Repr

namespace Agent

/-- The effect of `Agent.__post_init__`: it unconditionally resets
`self.stats` to all ones and `self.equipped` to all-empty slots, after the
dataclass `__init__` has stored the constructor arguments. -/
def postInit (a : Agent) : Agent :=
  { a with stats := Stats.ones, equipped := Equipped.empty }

/-- `Agent.random(name)`: the five stats are rolled independently with
`random.randint(config.MIN_STAT, config.MAX_STAT)`; the pre-rolled mapping
is the explicit `roll` parameter. The constructor call
`cls(name=name, stats=stats, level=1, experience=0, money=0,
status=Status.AVAILABLE)` stores the roll, then `__post_init__` runs. -/
def random (name : String) (roll : Stats) : Agent :=
  postInit
    { name := name
      level := 1
      experience := 0
      money := 0
      status := Status.available
      stats := roll
      inventory := []
      equipped := Equipped.empty
      agent_class := none
      stress := 0
      injury_days_left := none }

/-- `get_level_threshold` / `get_next_level_xp`: `self.level * 100`. -/
def get_next_level_xp (a : Agent) : Nat := a.level * 100

/-- `level_up`: level += 1 and every stat += 1. -/
def level_up (a : Agent) : Agent :=
  { a with level := a.level + 1, stats := a.stats.incrAll }

/-- `gain_experience(amount)`: accumulate experience, level up when the
threshold is reached. -/
def gain_experience (a : Agent) (amount : Nat) : Agent :=
  let a1 := { a with experience := a.experience + amount }
  if a1.experience ≥ a1.get_next_level_xp then a1.level_up else a1

/-- `get_total_stats`: base stat sum plus the stat sums of every equipped
item (additive). -/
def get_total_stats (a : Agent) : Int :=
  a.stats.sum + ((a.equipped.items.map Equipment.statSum).sum)

/-- `add_to_inventory(equipment)`: unconditional `self.inventory.append`. -/
def add_to_inventory (a : Agent) (e : Equipment) : Agent :=
  { a with inventory := a.inventory ++ [e] }

/-- `remove_from_inventory(equipment)`: remove the first occurrence when
present. -/
def remove_from_inventory (a : Agent) (e : Equipment) : Agent :=
  if e ∈ a.inventory then { a with inventory := a.inventory.erase e } else a

/-- `equip_item(equipment)`: when the item is in the inventory, append the
currently equipped item of the same slot (if any) back to the inventory,
put the new item in the slot, and remove its first occurrence from the
inventory; returns the success flag. -/
def equip_item (a : Agent) (e : Equipment) : Agent × Bool :=
  if e ∈ a.inventory then
    let current := a.equipped.get e.type
    ({ a with
        inventory := (a.inventory ++ current.toList).erase e
        equipped := a.equipped.set e.type (some e) }, true)
  else (a, false)

/-- `unequip_item(equipment_type)`: move the slot's item (if any) back to
the inventory and return it. -/
def unequip_item (a : Agent) (t : EquipmentType) : Agent × Option Equipment :=
  match a.equipped.get t with
  | some item =>
      ({ a with inventory := a.inventory ++ [item], equipped := a.equipped.set t none },
       some item)
  | none => (a, none)

/-- `_handle_stress_breakdown`: a fair coin decides between deceased and
resting-with-stress-80. `coin = true` models `random.random() < 0.5`. -/
def handleStressBreakdown (a : Agent) (coin : Bool) : Agent :=
  if coin then { a with status := Status.deceased }
  else { a with status := Status.resting, stress := 80 }

/-- `apply_stress(amount)`: clamp stress at 100 from above; when the
result is at the ceiling, run the breakdown branch. -/
def apply_stress (a : Agent) (amount : Int) (coin : Bool) : Agent :=
  let a1 := { a with stress := min 100 (a.stress + amount) }
  if a1.stress ≥ 100 then a1.handleStressBreakdown coin else a1

/-- `recover_stress(amount)`: stress floors at 0; reaching 0 while resting
flips the status back to available. -/
def recover_stress (a : Agent) (amount : Int) : Agent :=
  let a1 := { a with stress := max 0 (a.stress - amount) }
  if a1.stress = 0 ∧ a1.status = Status.resting then { a1 with status := Status.available }
  else a1

/-- `heal_injury()`: decrement the injury-day counter when set; at 0 the
counter clears and the status becomes available. -/
def heal_injury (a : Agent) : Agent :=
  match a.injury_days_left with
  | none => a
  | some d =>
      if d - 1 ≤ 0 then { a with injury_days_left := none, status := Status.available }
      else { a with injury_days_left := some (d - 1) }

/-- `is_available()`. -/
def is_available (a : Agent) : Bool := a.status = Status.available

end Agent

/-- Ghost dataclass from entities/ghost.py (immutable once generated). -/
structure Ghost where
  name : String
  ghost_type : String
  difficulty : Nat
  abilities : List String
  weaknesses : List String
  location : String
deriving DecidableEq, Repr

/-- `get_difficulty_multiplier` composed with `get_reward`:
`int(base_reward * (1.0 + difficulty * 0.1))`. -/
def Ghost.get_reward (g : Ghost) : Int :=
  pyTrunc ((config.BASE_MISSION_REWARD : ℚ) * (1 + (g.difficulty : ℚ) * (1 / 10)))

/-- Mission dataclass from entities/mission.py. -/
structure Mission where
  name : String
  description : String
  location : String
  difficulty : Nat
  ghost : Ghost
  reward : Int
  status : Status
  assigned_agents : List String
deriving DecidableEq, Repr

namespace Mission

/-- `Mission.generate(location, difficulty)`: wraps a freshly generated
ghost (passed explicitly here, standing for `Ghost.random(difficulty)`)
into an available mission. -/
def generate (location : String) (difficulty : Nat) (ghost : Ghost) : Mission :=
  { name := "Investigate " ++ ghost.ghost_type ++ " Activity"
    description := "Reports of " ++ ghost.ghost_type ++ " activity in " ++ location
    location := location
    difficulty := difficulty
    ghost := ghost
    reward := ghost.get_reward
    status := Status.available
    assigned_agents := [] }

/-- `assign_agent(agent_name)`: append up to the per-mission cap. -/
def assign_agent (m : Mission) (agent_name : String) : Mission × Bool :=
  if m.assigned_agents.length ≥ config.MAX_AGENTS_PER_MISSION then (m, false)
  else ({ m with assigned_agents := m.assigned_agents ++ [agent_name] }, true)

/-- `start()`: mark the mission in progress. -/
def start (m : Mission) : Mission := { m with status := Status.in_progress }

/-- `complete(success)`. -/
def complete (m : Mission) (success : Bool) : Mission :=
  { m with status := if success then Status.completed else Status.failed }

end Mission

/-- Region from core/world_map.py: the modifiers dict is rolled once at
creation; only `fear_mult` feeds the simulation core
(`region.modifiers['fear_mult']`), so it is the field kept here. -/
structure Region where
  name : String
  fear_mult : ℚ
  missions : List Mission
deriving DecidableEq, Repr

/-- Room dataclass from core/room.py (the defined, reachable part:
level/capacity/maintenance/upgrades). -/
structure Room where
  name : String
  room_type : String
  level : Nat
  capacity : Nat
  maintenance_cost : Int
  upgrades : List String
deriving DecidableEq, Repr

namespace Room

/-- `upgrade()`: failure at the level cap, otherwise bump level, capacity
and maintenance cost by the fixed increments. -/
def upgrade (r : Room) : Room × Bool :=
  if r.level ≥ config.MAX_ROOM_LEVEL then (r, false)
  else ({ r with
            level := r.level + 1
            capacity := r.capacity + config.ROOM_CAPACITY_INCREASE
            maintenance_cost := r.maintenance_cost + config.MAINTENANCE_COST_INCREASE },
        true)

/-- `add_upgrade(upgrade)`: set-like append, failure on duplicates. -/
def add_upgrade (r : Room) (u : String) : Room × Bool :=
  if u ∈ r.upgrades then (r, false)
  else ({ r with upgrades := r.upgrades ++ [u] }, true)

/-- `remove_upgrade(upgrade)`. -/
def remove_upgrade (r : Room) (u : String) : Room × Bool :=
  if u ∈ r.upgrades then ({ r with upgrades := r.upgrades.erase u }, true)
  else (r, false)

/-- `get_total_maintenance_cost()`: base cost plus the per-upgrade
surcharge for each present upgrade. -/
def get_total_maintenance_cost (r : Room) : Int :=
  r.maintenance_cost + (r.upgrades.length : Int) * config.UPGRADE_MAINTENANCE_COST

end Room

/-- Research dataclass from core/research.py. The Python sentinel
`current_project = ""` (no active project) is `none`; a nonempty (truthy)
string is `some`. -/
structure Research where
  completed_projects : List String
  current_project : Option String
  progress : Int
deriving DecidableEq, Repr

namespace Research

/-- A fresh Research tracker (dataclass defaults). -/
def init : Research := { completed_projects := [], current_project := none, progress := 0 }

/-- `start_project(project)`: fails when the project is already completed
or another project is active; otherwise it becomes current with progress 0. -/
def start_project (r : Research) (project : String) : Research × Bool :=
  if project ∈ r.completed_projects ∨ r.current_project ≠ none then (r, false)
  else ({ r with current_project := some project, progress := 0 }, true)

/-- `complete_project()`: move the current project into the completed
list, clear the slot and reset progress. -/
def complete_project (r : Research) : Research :=
  match r.current_project with
  | some p =>
      { r with completed_projects := r.completed_projects ++ [p]
               current_project := none
               progress := 0 }
  | none => r

/-- `advance_project(amount)`: no-op failure when nothing is active;
otherwise accumulate progress and complete at the fixed cost. -/
def advance_project (r : Research) (amount : Int) : Research × Bool :=
  match r.current_project with
  | none => (r, false)
  | some _ =>
      let r1 := { r with progress := r.progress + amount }
      if r1.progress ≥ config.RESEARCH_PROJECT_COST then (r1.complete_project, true)
      else (r1, false)

end Research

/-- Structured stand-ins for the mission_log f-strings appended by the
Python code; each constructor carries the data the string renders. -/
inductive LogEntry where
  | paidUtility (day : Nat) (utility : String) (cost : Int)
  | paidSalaries (total : Int)
  | paidMaintenance (day : Nat) (room : String) (cost : Int)
  | noAgents (day : Nat) (region : String)
  | missionResult (day : Nat) (region : String) (success : Bool) (chance : ℚ)
  | addedFunds (amount : Int)
  | reputationChanged (amount : Int)
  | hired (name : String) (level : Nat)
deriving DecidableEq, Repr

/-- Agency dataclass from core/agency.py. -/
structure Agency where
  funds : Int
  reputation : Int
  roster : List Agent
  mission_log : List LogEntry
  utilities : List (String × Int)
  rooms : List Room
  research : Research
deriving DecidableEq, Repr

/-- The default utilities mapping installed by `Agency.__post_init__`
(dict insertion order preserved). -/
def defaultUtilities : List (String × Int) :=
  [("Electricity", 50), ("Water", 30), ("Internet", 40), ("Maintenance", 20)]

namespace Agency

/-- `pay_salaries()`: subtract roster size times the daily salary and log
the total. -/
def pay_salaries (ag : Agency) : Agency :=
  let total := (ag.roster.length : Int) * config.DAILY_SALARY_PER_AGENT
  { ag with funds := ag.funds - total
            mission_log := ag.mission_log ++ [LogEntry.paidSalaries total] }

/-- `add_funds(amount)`. -/
def add_funds (ag : Agency) (amount : Int) : Agency :=
  { ag with funds := ag.funds + amount
            mission_log := ag.mission_log ++ [LogEntry.addedFunds amount] }

/-- `update_reputation(amount)`: clamped to [0, 100]. -/
def update_reputation (ag : Agency) (amount : Int) : Agency :=
  { ag with reputation := max 0 (min 100 (ag.reputation + amount))
            mission_log := ag.mission_log ++ [LogEntry.reputationChanged amount] }

/-- `get_available_agents()`. -/
def get_available_agents (ag : Agency) : List Agent :=
  ag.roster.filter (fun a => a.status = Status.available)

end Agency

/-- The game-level state touched by `Game.run_mission` and
`Game.daily_update` in main.py: the agency aggregate and the day counter. -/
structure GameSt where
  agency : Agency
  day : Nat
deriving DecidableEq, Repr

/-- Marks the first `k` available agents of the roster (the agents the
mission loop mutates in place: `get_available_agents()[:k]` aliases roster
elements, so the roster update acts exactly on those positions). -/
def markSelect : List Agent → Nat → List (Agent × Bool)
  | [], _ => []
  | a :: rest, k =>
      if a.status = Status.available ∧ 0 < k
      then (a, true) :: markSelect rest (k - 1)
      else (a, false) :: markSelect rest k

/-- `success_chance = min(0.95, total_stats / (difficulty * 10))` from
`Game.run_mission`. -/
def success_chance (total_stats : Int) (difficulty : Nat) : ℚ :=
  min (19 / 20 : ℚ) ((total_stats : ℚ) / ((difficulty : ℚ) * 10))

/-- The net per-agent effect of one mission on a selected agent, composing
the in-place mutations of `Game.run_mission` in source order: status to
ON_MISSION, inline stress clamp (`min(100, stress + int(...))` — note:
not `apply_stress`), experience gain on success, status reset to
AVAILABLE. -/
def missionAgentUpdate (d : Nat) (inc : Int) (success : Bool) (a : Agent) : Agent :=
  let a1 := { a with status := Status.on_mission }
  let a2 := { a1 with stress := min 100 (a1.stress + inc) }
  let a3 := if success then a2.gain_experience (d * 10) else a2
  { a3 with status := Status.available }

/-- `Game.run_mission(region)` from main.py. `roll` is the
`random.random()` outcome draw; `freshGhost` is the ghost rolled by the
regeneration step. `none` models the IndexError Python raises when the
region has no mission (`region.missions[0]`). -/
def run_mission (g : GameSt) (region : Region) (roll : ℚ) (freshGhost : Ghost) :
    Option (GameSt × Region) :=
  match region.missions with
  | [] => none
  | m :: _ =>
    let agents := g.agency.get_available_agents.take config.MAX_AGENTS_PER_MISSION
    if agents = [] then
      some ({ g with agency :=
                { g.agency with mission_log :=
                    g.agency.mission_log ++ [LogEntry.noAgents g.day region.name] } },
            region)
    else
      let d := m.difficulty
      -- assignment and mission status flow; the mission object is
      -- replaced by the regeneration step, so its final value is dropped
      let _missionFinal :=
        ((agents.foldl (fun ms a => (ms.assign_agent a.name).1) m).start).complete
      let total_stats := (agents.map Agent.get_total_stats).sum
      let chance := success_chance total_stats d
      let success := decide (roll < chance)
      let inc := pyTrunc ((d : ℚ) * 10 * region.fear_mult)
      let roster' := (markSelect g.agency.roster config.MAX_AGENTS_PER_MISSION).map
          (fun p => if p.2 then missionAgentUpdate d inc success p.1 else p.1)
      let ag1 := { g.agency with roster := roster' }
      let ag2 :=
        if success then (ag1.add_funds m.reward).update_reputation ((d : Int) * 5)
        else ag1.update_reputation (-((d : Int) * 2))
      let ag3 := { ag2 with mission_log :=
          ag2.mission_log ++ [LogEntry.missionResult g.day region.name success chance] }
      some ({ g with agency := ag3 },
            { region with missions := [Mission.generate region.name d freshGhost] })

/-- The per-agent branch of the daily tick loop in `Game.daily_update`:
resting agents recover 20 stress, injured agents recover 10. -/
def dailyAgentTick (a : Agent) : Agent :=
  if a.status = Status.resting then a.recover_stress 20
  else if a.status = Status.injured then a.recover_stress 10
  else a

/-- One pay loop of `Game.daily_update`: for each element subtract its
cost from funds and append its log entry. -/
def payEach {α : Type} (costOf : α → Int) (entryOf : α → LogEntry)
    (xs : List α) (ag : Agency) : Agency :=
  xs.foldl
    (fun acc x =>
      { acc with funds := acc.funds - costOf x
                 mission_log := acc.mission_log ++ [entryOf x] })
    ag

/-- `Game.daily_update()` from main.py: utilities, salaries, room
maintenance (in that order, no step skipped on negative funds), then agent
recovery, research advance, and the day increment. -/
def daily_update (g : GameSt) : GameSt :=
  let ag := g.agency
  let ag1 := payEach (fun u => u.2) (fun u => LogEntry.paidUtility g.day u.1 u.2)
      ag.utilities ag
  let ag2 := ag1.pay_salaries
  let ag3 := payEach Room.get_total_maintenance_cost
      (fun r => LogEntry.paidMaintenance g.day r.name r.get_total_maintenance_cost)
      ag2.rooms ag2
  let ag4 := { ag3 with roster := ag3.roster.map dailyAgentTick }
  let ag5 :=
    match ag4.research.current_project with
    | some _ => { ag4 with research := (ag4.research.advance_project 10).1 }
    | none => ag4
  { agency := ag5, day := g.day + 1 }

/-- Flag telling whether the roster agent at index `i` is one of the (up
to four) agents `run_mission` selects and mutates. -/
def selectedFlag (r : List Agent) (i : Nat) : Bool :=
  match (markSelect r config.MAX_AGENTS_PER_MISSION).get? i with
  | some p => p.2
  | none => false

/-- An available agent one stress point below the breakdown threshold
window: stress 95, base stats, nothing equipped. -/
def exAgent95 : Agent :=
  { name := "Agent 1", level := 1, experience := 0, money := 0,
    status := Status.available, stats := Stats.ones, inventory := [],
    equipped := Equipped.empty, agent_class := none, stress := 95,
    injury_days_left := none }

/-- A concrete ghost of difficulty 1. -/
def exGhost1 : Ghost :=
  { name := "Shade 1", ghost_type := "Shade", difficulty := 1,
    abilities := [], weaknesses := ["Salt"], location := "" }

/-- The concrete difficulty-1 mission generated from `exGhost1`. -/
def exMission1 : Mission := Mission.generate "Coastal Ruins" 1 exGhost1

/-- A region holding `exMission1`, with fear multiplier 1. -/
def exRegion1 : Region :=
  { name := "Coastal Ruins", fear_mult := 1, missions := [exMission1] }

/-- A game state whose roster is the single agent `exAgent95`. -/
def exG1 : GameSt :=
  { agency :=
      { funds := 0, reputation := 50, roster := [exAgent95], mission_log := [],
        utilities := defaultUtilities, rooms := [], research := Research.init }
    day := 1 }

/-- The state after resolving `exMission1` in `exG1` (outcome roll 1, so
the mission fails; the stress arithmetic is outcome-independent). -/
def exRun1 : GameSt × Region :=
  (run_mission exG1 exRegion1 1 exGhost1).getD (exG1, exRegion1)

/-- A deceased agent in the state the breakdown branch leaves it in:
stress still at the ceiling. -/
def exDeceased : Agent :=
  { name := "Agent 2", level := 1, experience := 0, money := 0,
    status := Status.deceased, stats := Stats.ones, inventory := [],
    equipped := Equipped.empty, agent_class := none, stress := 100,
    injury_days_left := none }

/-- An injured agent with stress 10 (one daily tick from stress 0). -/
def exInjured : Agent :=
  { name := "Agent 3", level := 1, experience := 0, money := 0,
    status := Status.injured, stats := Stats.ones, inventory := [],
    equipped := Equipped.empty, agent_class := none, stress := 10,
    injury_days_left := none }

/-- A game state whose roster is the single injured agent. -/
def exG4 : GameSt :=
  { agency :=
      { funds := 0, reputation := 50, roster := [exInjured], mission_log := [],
        utilities := defaultUtilities, rooms := [], research := Research.init }
    day := 1 }

/-- A concrete equipment instance. -/
def exItem : Equipment :=
  { name := "Ghost Gun", type := EquipmentType.weapon,
    stats := [("combat", 2), ("tech", 1)], abilities := ["shoot", "stun"],
    cost := 1000, level_requirement := 1 }

/-- An agent holding `exItem` in the weapon slot and nothing in the
inventory (a state satisfying the exclusivity invariant). -/
def exAgent5 : Agent :=
  { name := "Agent 4", level := 1, experience := 0, money := 0,
    status := Status.available, stats := Stats.ones, inventory := [],
    equipped := { weapon := some exItem, armor := none, tool := none, trinket := none },
    agent_class := none, stress := 0, injury_days_left := none }

/-- An agent with `exItem` in the inventory and empty slots. -/
def exAgent7 : Agent :=
  { name := "Agent 5", level := 1, experience := 0, money := 0,
    status := Status.available, stats := Stats.ones, inventory := [exItem],
    equipped := Equipped.empty, agent_class := none, stress := 0,
    injury_days_left := none }

/-- A default available agent. -/
def exAgentPlain (name : String) : Agent :=
  { name := name, level := 1, experience := 0, money := 0,
    status := Status.available, stats := Stats.ones, inventory := [],
    equipped := Equipped.empty, agent_class := none, stress := 0,
    injury_days_left := none }

/-- A level-1 room with default capacity 4 and base maintenance cost 50. -/
def exRoom : Room :=
  { name := "Medical Room", room_type := "Medical", level := 1,
    capacity := config.DEFAULT_ROOM_CAPACITY,
    maintenance_cost := config.DEFAULT_MAINTENANCE_COST, upgrades := [] }

/-- The agency of the spec's daily-tick example: funds 5000, two agents,
one room costing 50 maintenance, default utilities. -/
def exG6 : GameSt :=
  { agency :=
      { funds := 5000, reputation := 50,
        roster := [exAgentPlain "Agent 1", exAgentPlain "Agent 2"],
        mission_log := [], utilities := defaultUtilities, rooms := [exRoom],
        research := Research.init }
    day := 1 }

/-- A game state with an empty roster (so no agents are available). -/
def exG10 : GameSt :=
  { agency :=
      { funds := 5000, reputation := 50, roster := [], mission_log := [],
        utilities := defaultUtilities, rooms := [], research := Research.init }
    day := 1 }

/-- All equipment an agent holds, with multiplicity: the inventory plus
every equipped slot. -/
def Agent.heldItems (a : Agent) : Multiset Equipment :=
  (a.inventory : Multiset Equipment) + (a.equipped.items : Multiset Equipment)

/-- Per-agent exclusivity invariant: no equipment instance occurs twice
among the agent's inventory and equipped slots (in particular never both
in the inventory and equipped). -/
def AgentInv (a : Agent) : Prop := a.heldItems.Nodup

instance (a : Agent) : Decidable (AgentInv a) :=
  inferInstanceAs (Decidable (Multiset.Nodup (Agent.heldItems a)))

/-- Every equipment instance held by any agent of the roster, with
multiplicity. -/
def rosterHeld (l : List Agent) : Multiset Equipment := (l.map Agent.heldItems).sum

/-- Cross-agent exclusivity invariant: no equipment instance occurs twice
across the whole roster (this implies each agent's `AgentInv` and that no
instance sits on two agents). -/
def RosterInv (l : List Agent) : Prop := (rosterHeld l).Nodup

/-! ## Helper lemmas -/

/-- Selecting marks preserves the roster length. -/
theorem markSelect_length (r : List Agent) : ∀ k : Nat, (markSelect r k).length = r.length := by
  induction r with
  | nil => intro k; rfl
  | cons a rest ih =>
      intro k
      by_cases hc : a.status = Status.available ∧ 0 < k
      · simp [markSelect, hc, ih]
      · simp [markSelect, hc, ih]

/-- The first components of the marked roster are the roster itself. -/
theorem markSelect_map_fst (r : List Agent) :
    ∀ k : Nat, (markSelect r k).map Prod.fst = r := by
  induction r with
  | nil => intro k; rfl
  | cons a rest ih =>
      intro k
      by_cases hc : a.status = Status.available ∧ 0 < k
      · simp [markSelect, hc, ih]
      · simp [markSelect, hc, ih]

/-- The marked roster agent at a position is the roster agent there. -/
theorem markSelect_getElem_fst (r : List Agent) (k i : Nat)
    (h : i < (markSelect r k).length) (h2 : i < r.length) :
    ((markSelect r k)[i]).1 = r[i] := by
  have hlen : i < ((markSelect r k).map Prod.fst).length := by
    rw [List.length_map]; exact h
  have h1 : ((markSelect r k).map Prod.fst).get ⟨i, hlen⟩ = ((markSelect r k)[i]).1 := by
    rw [List.get_eq_getElem, List.getElem_map]
  rw [← h1]
  have hmap := markSelect_map_fst r k
  simp only [List.get_eq_getElem, hmap]

/-- A marked-selected agent is available. -/
theorem markSelect_flag_avail (r : List Agent) :
    ∀ (k i : Nat) (h : i < (markSelect r k).length),
      ((markSelect r k)[i]).2 = true → ((markSelect r k)[i]).1.status = Status.available := by
  induction r with
  | nil => intro k i h; simp [markSelect] at h
  | cons a rest ih =>
      intro k i h hflag
      by_cases hc : a.status = Status.available ∧ 0 < k
      · simp only [markSelect, if_pos hc] at h hflag ⊢
        cases i with
        | zero => simpa using hc.1
        | succ j =>
            simp only [List.getElem_cons_succ] at hflag ⊢
            exact ih (k - 1) j (by simpa using h) hflag
      · simp only [markSelect, if_neg hc] at h hflag ⊢
        cases i with
        | zero => simp at hflag
        | succ j =>
            simp only [List.getElem_cons_succ] at hflag ⊢
            exact ih k j (by simpa using h) hflag

/-- Experience gain never changes an agent's stress. -/
theorem gain_experience_stress (a : Agent) (n : Nat) :
    (a.gain_experience n).stress = a.stress := by
  simp only [Agent.gain_experience, Agent.level_up]
  split <;> rfl

/-- The net mission effect on a selected agent: stress is the inline
clamp of the source, status ends available. -/
theorem missionAgentUpdate_spec (d : Nat) (inc : Int) (success : Bool) (a : Agent) :
    (missionAgentUpdate d inc success a).stress = min 100 (a.stress + inc)
    ∧ (missionAgentUpdate d inc success a).status = Status.available := by
  unfold missionAgentUpdate
  constructor
  · cases success
    · rfl
    · simp [gain_experience_stress]
  · rfl

/-- Unfolding of `run_mission` when the region has a mission: either no
agent is available and only the log grows, or the roster is rewritten by
the per-agent mission update on the selected agents. -/
theorem run_mission_cases (g : GameSt) (region : Region) (roll : ℚ) (freshGhost : Ghost)
    (m : Mission) (rest : List Mission) (hm : region.missions = m :: rest) :
    (g.agency.get_available_agents.take config.MAX_AGENTS_PER_MISSION = []
      ∧ run_mission g region roll freshGhost =
          some ({ g with agency :=
                    { g.agency with mission_log :=
                        g.agency.mission_log ++ [LogEntry.noAgents g.day region.name] } },
                region))
    ∨ (g.agency.get_available_agents.take config.MAX_AGENTS_PER_MISSION ≠ []
      ∧ ∃ out : GameSt × Region, run_mission g region roll freshGhost = some out
          ∧ out.1.agency.roster =
              (markSelect g.agency.roster config.MAX_AGENTS_PER_MISSION).map
                (fun p => if p.2
                  then missionAgentUpdate m.difficulty
                        (pyTrunc ((m.difficulty : ℚ) * 10 * region.fear_mult))
                        (decide (roll < success_chance
                          (((g.agency.get_available_agents.take
                              config.MAX_AGENTS_PER_MISSION).map Agent.get_total_stats).sum)
                          m.difficulty))
                        p.1
                  else p.1)) := by
  by_cases ha : g.agency.get_available_agents.take config.MAX_AGENTS_PER_MISSION = []
  · left
    refine ⟨ha, ?_⟩
    unfold run_mission
    rw [hm]
    simp only [if_pos ha]
  · right
    refine ⟨ha, ?_⟩
    unfold run_mission
    rw [hm]
    simp only [if_neg ha]
    refine ⟨_, rfl, ?_⟩
    split <;> simp only [Agency.add_funds, Agency.update_reputation]

/-- Closed form of a pay loop: funds drop by the total cost, the log grows
by one entry per element, everything else is untouched. -/
theorem payEach_eq {α : Type} (costOf : α → Int) (entryOf : α → LogEntry) :
    ∀ (xs : List α) (ag : Agency),
      payEach costOf entryOf xs ag =
        { ag with funds := ag.funds - (xs.map costOf).sum
                  mission_log := ag.mission_log ++ xs.map entryOf } := by
  intro xs
  induction xs with
  | nil => intro ag; simp [payEach]
  | cons x xs ih =>
      intro ag
      have hstep : payEach costOf entryOf (x :: xs) ag =
          payEach costOf entryOf xs
            { ag with funds := ag.funds - costOf x
                      mission_log := ag.mission_log ++ [entryOf x] } := rfl
      rw [hstep, ih]
      simp [sub_sub]

/-- The daily tick maps every roster agent through the recovery branch. -/
theorem daily_update_roster (g : GameSt) :
    (daily_update g).agency.roster = g.agency.roster.map dailyAgentTick := by
  simp only [daily_update]
  rw [payEach_eq, payEach_eq]
  simp only [Agency.pay_salaries]
  cases hc : g.agency.research.current_project <;> simp [hc]

/-- Funds after the daily tick: utilities, then salaries, then room
maintenance, all subtracted unconditionally. -/
theorem daily_update_funds (g : GameSt) :
    (daily_update g).agency.funds =
      g.agency.funds - (g.agency.utilities.map Prod.snd).sum
        - (g.agency.roster.length : Int) * config.DAILY_SALARY_PER_AGENT
        - (g.agency.rooms.map Room.get_total_maintenance_cost).sum := by
  simp only [daily_update]
  rw [payEach_eq, payEach_eq]
  simp only [Agency.pay_salaries]
  cases hc : g.agency.research.current_project <;> simp [hc]

/-- Log growth of the daily tick: one entry per utility, the salary entry,
one entry per room, in that order. -/
theorem daily_update_log (g : GameSt) :
    (daily_update g).agency.mission_log =
      g.agency.mission_log
        ++ g.agency.utilities.map (fun u => LogEntry.paidUtility g.day u.1 u.2)
        ++ [LogEntry.paidSalaries ((g.agency.roster.length : Int) * config.DAILY_SALARY_PER_AGENT)]
        ++ g.agency.rooms.map
            (fun r => LogEntry.paidMaintenance g.day r.name r.get_total_maintenance_cost) := by
  simp only [daily_update]
  rw [payEach_eq, payEach_eq]
  simp only [Agency.pay_salaries]
  cases hc : g.agency.research.current_project <;> simp [hc, List.append_assoc]

/-- Equipping an item in the inventory permutes the held multiset: the
new item moves from inventory to a slot, the displaced item (if any) moves
back to the inventory. -/
theorem equip_item_heldItems (a : Agent) (e : Equipment) :
    ((a.equip_item e).1).heldItems = a.heldItems := by
  unfold Agent.equip_item
  by_cases hmem : e ∈ a.inventory
  · have hmem' : e ∈ (a.inventory : Multiset Equipment) := Multiset.mem_coe.mpr hmem
    simp only [if_pos hmem]
    cases ht : e.type
    all_goals (
      simp only [Agent.heldItems, Equipped.get, Equipped.set, Equipped.items, ht,
        Option.toList_some, ← Multiset.coe_erase, ← Multiset.coe_add, Multiset.coe_singleton]
      rw [Multiset.erase_add_left_pos _ hmem']
      conv_rhs => rw [← Multiset.cons_erase hmem', ← Multiset.singleton_add]
      abel)
  · simp [if_neg hmem]

/-- Unequipping moves the slot's item back to the inventory; the held
multiset is unchanged. -/
theorem unequip_item_heldItems (a : Agent) (t : EquipmentType) :
    ((a.unequip_item t).1).heldItems = a.heldItems := by
  unfold Agent.unequip_item
  cases hslot : a.equipped.get t
  · rfl
  · cases t
    all_goals (
      simp only [Equipped.get] at hslot
      simp only [Equipped.get, Equipped.set, Equipped.items, hslot, Agent.heldItems,
        Option.toList_some, Option.toList_none, List.nil_append,
        ← Multiset.coe_add, Multiset.coe_singleton]
      abel)

/-- Adding to the inventory adds one occurrence to the held multiset. -/
theorem add_to_inventory_heldItems (a : Agent) (e : Equipment) :
    (a.add_to_inventory e).heldItems = e ::ₘ a.heldItems := by
  unfold Agent.add_to_inventory
  simp only [Agent.heldItems, ← Multiset.coe_add, Multiset.coe_singleton]
  rw [← Multiset.singleton_add]
  abel

/-- Removing from the inventory only ever drops occurrences. -/
theorem remove_from_inventory_heldItems_le (a : Agent) (e : Equipment) :
    (a.remove_from_inventory e).heldItems ≤ a.heldItems := by
  unfold Agent.remove_from_inventory
  by_cases hmem : e ∈ a.inventory
  · simp only [if_pos hmem, Agent.heldItems, ← Multiset.coe_erase]
    exact add_le_add_right (Multiset.erase_le e _) _
  · simp [if_neg hmem]

/-- Replacing one roster agent by an agent holding the same multiset of
equipment leaves the roster-wide held multiset unchanged. -/
theorem rosterHeld_set (l : List Agent) :
    ∀ (i : Nat) (h : i < l.length) (a' : Agent),
      a'.heldItems = (l[i]).heldItems → rosterHeld (l.set i a') = rosterHeld l := by
  induction l with
  | nil => intro i h; simp at h
  | cons x xs ih =>
      intro i h a' hheld
      cases i with
      | zero =>
          simp only [List.getElem_cons_zero] at hheld
          simp only [List.set_cons_zero, rosterHeld, List.map_cons, List.sum_cons, hheld]
      | succ j =>
          simp only [List.getElem_cons_succ] at hheld
          have hxs := ih j (by simpa using h) a' hheld
          simp only [rosterHeld] at hxs
          simp only [List.set_cons_succ, rosterHeld, List.map_cons, List.sum_cons, hxs]

/-! ## Claim theorems -/

/-- C2 (code bug): `Agent.random` rolls a stat mapping but the constructed
agent does not keep it — `__post_init__` unconditionally overwrites every
stat with 1, so for every name and every roll the returned agent's stats
are the all-ones mapping; in particular the roll (7, 3, 9, 2, 5) is
discarded. -/
theorem agent_random_stats_overwritten :
    (∀ (name : String) (roll : Stats), (Agent.random name roll).stats = Stats.ones)
    ∧ (Agent.random "Agent 1" ⟨7, 3, 9, 2, 5⟩).stats ≠ ⟨7, 3, 9, 2, 5⟩ := by
  refine ⟨fun name roll => rfl, ?_⟩
  decide

/-- C6: one daily tick subtracts every utility cost, then roster size
times the daily salary, then each room's total maintenance cost, in that
order (witnessed by the log), performing every subtraction with no
conditioning on the sign of funds; the spec's example agency (funds 5000,
2 agents, one room at 50 maintenance, default utilities) ends the tick at
4790. -/
theorem daily_tick_funds :
    (∀ g : GameSt,
      (daily_update g).agency.funds =
        g.agency.funds - (g.agency.utilities.map Prod.snd).sum
          - (g.agency.roster.length : Int) * config.DAILY_SALARY_PER_AGENT
          - (g.agency.rooms.map Room.get_total_maintenance_cost).sum)
    ∧ (∀ g : GameSt,
      (daily_update g).agency.mission_log =
        g.agency.mission_log
          ++ g.agency.utilities.map (fun u => LogEntry.paidUtility g.day u.1 u.2)
          ++ [LogEntry.paidSalaries
                ((g.agency.roster.length : Int) * config.DAILY_SALARY_PER_AGENT)]
          ++ g.agency.rooms.map
              (fun r => LogEntry.paidMaintenance g.day r.name r.get_total_maintenance_cost))
    ∧ (daily_update exG6).agency.funds = 4790 :=
  ⟨daily_update_funds, daily_update_log, by decide⟩

/-- C7: success_chance is the capped ratio min(0.95, total_stats /
(difficulty × 10)); it lies in [0, 0.95] whenever total_stats ≥ 0 and
difficulty ≥ 1; total_stats = 50 at difficulty 4 hits the cap exactly; and
equipping an item adds its stat sum additively to an agent's total stats. -/
theorem success_chance_bounds :
    (∀ (total_stats : Int) (d : Nat), 1 ≤ d → 0 ≤ total_stats →
      0 ≤ success_chance total_stats d ∧ success_chance total_stats d ≤ 19 / 20)
    ∧ success_chance 50 4 = 19 / 20
    ∧ (∀ (a : Agent) (e : Equipment),
        a.equipped.get e.type = none → e ∈ a.inventory →
        (a.equip_item e).1.get_total_stats = a.get_total_stats + e.statSum) := by
  refine ⟨?_, ?_, ?_⟩
  · intro ts d hd hts
    constructor
    · apply le_min
      · norm_num
      · apply div_nonneg
        · exact_mod_cast hts
        · positivity
    · exact min_le_left _ _
  · unfold success_chance
    push_cast
    norm_num
  · intro a e hslot hmem
    simp only [Agent.equip_item, if_pos hmem]
    cases ht : e.type
    all_goals (
      rw [ht] at hslot
      simp only [Equipped.get] at hslot
      simp only [Agent.get_total_stats, Equipped.set, Equipped.items, hslot,
        Option.toList_some, Option.toList_none, List.nil_append, List.map_append,
        List.sum_append, List.map_cons, List.sum_cons, List.map_nil, List.sum_nil]
      ring)

/-- Witness for C7 at total_stats = 50, difficulty = 4, and a concrete
equip of exItem by exAgent7. -/
theorem success_chance_bounds_witness :
    (0 ≤ success_chance 50 4 ∧ success_chance 50 4 ≤ 19 / 20)
    ∧ (exAgent7.equip_item exItem).1.get_total_stats
        = exAgent7.get_total_stats + exItem.statSum :=
  ⟨success_chance_bounds.1 50 4 (by decide) (by decide),
   success_chance_bounds.2.2 exAgent7 exItem rfl (by decide)⟩

/-- C8: a room below the level cap upgrades successfully, bumping the
level by one and strictly increasing capacity and maintenance cost; at or
above the cap the call fails and changes nothing; from level 1, the three
(= MAX_ROOM_LEVEL) successive calls succeed, succeed, and then fail. -/
theorem room_upgrade_spec :
    (∀ r : Room, r.level < config.MAX_ROOM_LEVEL →
      (r.upgrade.2 = true ∧ r.upgrade.1.level = r.level + 1 ∧
        r.capacity < r.upgrade.1.capacity ∧
        r.maintenance_cost < r.upgrade.1.maintenance_cost))
    ∧ (∀ r : Room, config.MAX_ROOM_LEVEL ≤ r.level → r.upgrade = (r, false))
    ∧ (∀ r : Room, r.level = 1 →
        (r.upgrade.2 = true ∧ r.upgrade.1.upgrade.2 = true ∧
          r.upgrade.1.upgrade.1.upgrade.2 = false)) := by
  refine ⟨?_, ?_, ?_⟩
  · intro r h
    have hn : ¬ (r.level ≥ config.MAX_ROOM_LEVEL) := Nat.not_le.mpr h
    simp only [Room.upgrade, if_neg hn]
    refine ⟨by trivial, by trivial, ?_, ?_⟩
    · simp only [config.ROOM_CAPACITY_INCREASE]
      omega
    · simp only [config.MAINTENANCE_COST_INCREASE]
      omega
  · intro r h
    simp only [Room.upgrade, if_pos (show r.level ≥ config.MAX_ROOM_LEVEL from h)]
  · intro r h
    simp [Room.upgrade, config.MAX_ROOM_LEVEL, h]

/-- Witness for C8 at the concrete level-1 room exRoom. -/
theorem room_upgrade_spec_witness :
    exRoom.upgrade.2 = true ∧ exRoom.upgrade.1.upgrade.2 = true ∧
      exRoom.upgrade.1.upgrade.1.upgrade.2 = false :=
  room_upgrade_spec.2.2 exRoom rfl

/-- C9: start_project fails exactly when the project is already completed
or a project is active, failure leaves the tracker unchanged, and success
installs the project with progress 0 and an untouched completed list. -/
theorem start_project_spec :
    ∀ (r : Research) (p : String),
      ((r.start_project p).2 = false ↔
        (p ∈ r.completed_projects ∨ r.current_project ≠ none))
      ∧ ((r.start_project p).2 = false → (r.start_project p).1 = r)
      ∧ ((r.start_project p).2 = true →
          ((r.start_project p).1.current_project = some p
            ∧ (r.start_project p).1.progress = 0
            ∧ (r.start_project p).1.completed_projects = r.completed_projects)) := by
  intro r p
  by_cases hc : p ∈ r.completed_projects ∨ r.current_project ≠ none
  · simp [Research.start_project, hc]
  · simp [Research.start_project, hc]

/-- Witness for C9: a fresh Research accepts a first project and installs
it with progress 0. -/
theorem start_project_spec_witness :
    (Research.init.start_project "Basic Equipment").2 = true
    ∧ (Research.init.start_project "Basic Equipment").1.current_project
        = some "Basic Equipment" := by
  have h := start_project_spec Research.init "Basic Equipment"
  have hc : ¬ (("Basic Equipment" : String) ∈ Research.init.completed_projects
      ∨ Research.init.current_project ≠ none) := by decide
  have hs : (Research.init.start_project "Basic Equipment").2 = true := by
    cases hb : (Research.init.start_project "Basic Equipment").2
    · exact absurd (h.1.mp hb) hc
    · rfl
  exact ⟨hs, (h.2.2 hs).1⟩

/-- C4 (amended): the daily tick advances an injured agent's recovery by
10 stress per day (floored at 0), but never changes its status — the
injured → available flip lives only in `heal_injury`, which the daily tick
does not call, and `recover_stress` only flips agents whose status is
resting. -/
theorem injured_daily_recovery_no_flip :
    ∀ (g : GameSt) (i : Nat) (h : i < g.agency.roster.length),
      (g.agency.roster[i]).status = Status.injured →
      ∃ h2 : i < (daily_update g).agency.roster.length,
        ((daily_update g).agency.roster[i]).stress
            = max 0 ((g.agency.roster[i]).stress - 10)
        ∧ ((daily_update g).agency.roster[i]).status = Status.injured := by
  intro g i h hst
  have hr := daily_update_roster g
  have h2 : i < (daily_update g).agency.roster.length := by
    rw [hr, List.length_map]; exact h
  refine ⟨h2, ?_⟩
  have hget : (daily_update g).agency.roster[i] = dailyAgentTick (g.agency.roster[i]) := by
    simp only [hr, List.getElem_map]
  rw [hget]
  unfold dailyAgentTick
  rw [if_neg (by simp [hst]), if_pos hst]
  simp only [Agent.recover_stress]
  rw [if_neg (by simp [hst])]
  exact ⟨rfl, hst⟩

/-- Witness for C4 at the concrete injured agent of exG4. -/
theorem injured_daily_recovery_no_flip_witness :
    ∃ h2 : 0 < (daily_update exG4).agency.roster.length,
      ((daily_update exG4).agency.roster.get ⟨0, h2⟩).stress
          = max 0 (exInjured.stress - 10)
      ∧ ((daily_update exG4).agency.roster.get ⟨0, h2⟩).status = Status.injured :=
  injured_daily_recovery_no_flip exG4 0 (by decide) (by decide)

/-- C4 counterexample: an injured agent at stress 10 completes its
recovery (stress 0) on the next daily tick yet remains injured, never
flipping to available. -/
theorem injured_recovery_cex :
    ((daily_update exG4).agency.roster.map fun a => (a.stress, a.status))
        = [((0 : Int), Status.injured)]
    ∧ Status.injured ≠ Status.available := by
  exact ⟨by decide, by decide⟩

/-- C3 (amended): stress recovery, the daily tick, and mission resolution
never move an agent out of the deceased state (deceased agents are never
selected for missions and never recovered); but a direct `apply_stress`
that leaves stress at the ceiling re-runs the breakdown branch, which can
set a deceased agent to resting — see the counterexample. -/
theorem deceased_preserved_core_flows :
    (∀ (a : Agent) (amt : Int), a.status = Status.deceased →
        (a.recover_stress amt).status = Status.deceased)
    ∧ (∀ (g : GameSt) (i : Nat) (h : i < g.agency.roster.length),
        (g.agency.roster[i]).status = Status.deceased →
        ∃ h2 : i < (daily_update g).agency.roster.length,
          (daily_update g).agency.roster[i] = g.agency.roster[i])
    ∧ (∀ (g : GameSt) (region : Region) (roll : ℚ) (gh : Ghost) (out : GameSt × Region)
        (i : Nat) (h : i < g.agency.roster.length),
        run_mission g region roll gh = some out →
        (g.agency.roster[i]).status = Status.deceased →
        ∃ h2 : i < out.1.agency.roster.length,
          out.1.agency.roster[i] = g.agency.roster[i]) := by
  refine ⟨?_, ?_, ?_⟩
  · intro a amt hdec
    simp only [Agent.recover_stress]
    rw [if_neg (by simp [hdec])]
    exact hdec
  · intro g i h hdec
    have hr := daily_update_roster g
    have h2 : i < (daily_update g).agency.roster.length := by
      rw [hr, List.length_map]; exact h
    refine ⟨h2, ?_⟩
    have hget : (daily_update g).agency.roster[i] = dailyAgentTick (g.agency.roster[i]) := by
      simp only [hr, List.getElem_map]
    rw [hget]
    unfold dailyAgentTick
    rw [if_neg (by simp [hdec]), if_neg (by simp [hdec])]
  · intro g region roll gh out i h heq hdec
    cases hm : region.missions with
    | nil =>
        unfold run_mission at heq
        rw [hm] at heq
        simp at heq
    | cons m rest =>
        rcases run_mission_cases g region roll gh m rest hm with ⟨ha, heqA⟩ | ⟨ha, out', heqB, hroster⟩
        · rw [heqA] at heq
          have hout := Option.some.inj heq
          subst hout
          exact ⟨h, rfl⟩
        · rw [heqB] at heq
          rw [Option.some.inj heq] at hroster
          have hlen : (markSelect g.agency.roster config.MAX_AGENTS_PER_MISSION).length
              = g.agency.roster.length := markSelect_length _ _
          have hi : i < (markSelect g.agency.roster config.MAX_AGENTS_PER_MISSION).length := by
            rw [hlen]; exact h
          have h2 : i < out.1.agency.roster.length := by
            rw [hroster, List.length_map, hlen]; exact h
          refine ⟨h2, ?_⟩
          have hfst : ((markSelect g.agency.roster config.MAX_AGENTS_PER_MISSION)[i]).1
              = g.agency.roster[i] := markSelect_getElem_fst _ _ i hi h
          have hflag : ((markSelect g.agency.roster config.MAX_AGENTS_PER_MISSION)[i]).2
              = false := by
            cases hb : ((markSelect g.agency.roster config.MAX_AGENTS_PER_MISSION)[i]).2
            · rfl
            · have := markSelect_flag_avail _ _ i hi hb
              rw [hfst, hdec] at this
              cases this
          have hget : out.1.agency.roster[i]
              = (fun p : Agent × Bool =>
                  if p.2 then missionAgentUpdate m.difficulty
                    (pyTrunc ((m.difficulty : ℚ) * 10 * region.fear_mult))
                    (decide (roll < success_chance
                      (((g.agency.get_available_agents.take
                          config.MAX_AGENTS_PER_MISSION).map Agent.get_total_stats).sum)
                      m.difficulty))
                    p.1
                  else p.1)
                ((markSelect g.agency.roster config.MAX_AGENTS_PER_MISSION)[i]) := by
            simp only [hroster, List.getElem_map]
          rw [hget]
          simp only [hflag, Bool.false_eq_true, if_false]
          exact hfst

/-- Witness for C3: recovery on a concrete deceased agent keeps it
deceased. -/
theorem deceased_preserved_core_flows_witness :
    (exDeceased.recover_stress 20).status = Status.deceased :=
  deceased_preserved_core_flows.1 exDeceased 20 rfl

/-- C3 counterexample: `apply_stress` on a deceased agent sitting at the
stress ceiling re-rolls the breakdown coin; with the resting outcome the
agent leaves the deceased state. -/
theorem deceased_revival_cex :
    exDeceased.status = Status.deceased
    ∧ (exDeceased.apply_stress 5 false).status = Status.resting
    ∧ Status.resting ≠ Status.deceased := by
  exact ⟨by decide, by decide, by decide⟩

/-- C5 (amended): equip_item and unequip_item preserve the held multiset
outright (hence every exclusivity invariant), remove_from_inventory
preserves the per-agent invariant, add_to_inventory preserves it exactly
when the added instance is not already held, and replacing a roster agent
with one holding the same multiset preserves the cross-agent invariant.
Unconditional preservation for add_to_inventory is refuted separately. -/
theorem equipment_exclusivity_preserved :
    (∀ (a : Agent) (e : Equipment), (a.equip_item e).1.heldItems = a.heldItems)
    ∧ (∀ (a : Agent) (t : EquipmentType), (a.unequip_item t).1.heldItems = a.heldItems)
    ∧ (∀ (a : Agent) (e : Equipment), AgentInv a → AgentInv (a.remove_from_inventory e))
    ∧ (∀ (a : Agent) (e : Equipment), AgentInv a → e ∉ a.heldItems →
        AgentInv (a.add_to_inventory e))
    ∧ (∀ (l : List Agent) (i : Nat) (h : i < l.length) (a' : Agent),
        a'.heldItems = (l[i]).heldItems → RosterInv l → RosterInv (l.set i a')) := by
  refine ⟨equip_item_heldItems, unequip_item_heldItems, ?_, ?_, ?_⟩
  · intro a e hinv
    exact Multiset.nodup_of_le (remove_from_inventory_heldItems_le a e) hinv
  · intro a e hinv hnot
    unfold AgentInv
    rw [add_to_inventory_heldItems]
    exact Multiset.nodup_cons.mpr ⟨hnot, hinv⟩
  · intro l i h a' hheld hinv
    unfold RosterInv
    rw [rosterHeld_set l i h a' hheld]
    exact hinv

/-- Witness for C5: removing an item from a concrete invariant-satisfying
agent keeps the invariant. -/
theorem equipment_exclusivity_preserved_witness :
    AgentInv (exAgent5.remove_from_inventory exItem) :=
  equipment_exclusivity_preserved.2.2.1 exAgent5 exItem (by decide)

/-- C5 counterexample: `add_to_inventory` is not exclusivity-preserving
in general — adding an item the agent already has equipped puts the same
instance in the inventory and in a slot at once. -/
theorem add_to_inventory_dup_cex :
    AgentInv exAgent5 ∧ ¬ AgentInv (exAgent5.add_to_inventory exItem) := by
  exact ⟨by decide, by decide⟩

/-- C1 (amended): for every selected agent, mission resolution adds
floor(difficulty × 10 × fear multiplier) to its stress, clamped to at most
100 — but reaching 100 does not run the stress-breakdown branch: the
agent's status ends available (never deceased) and its stress keeps the
clamped value (never the post-breakdown 80). -/
theorem mission_stress_no_breakdown :
    ∀ (g : GameSt) (region : Region) (roll : ℚ) (gh : Ghost) (out : GameSt × Region)
      (m : Mission) (rest : List Mission) (i : Nat) (h : i < g.agency.roster.length),
      region.missions = m :: rest →
      run_mission g region roll gh = some out →
      selectedFlag g.agency.roster i = true →
      ∃ h2 : i < out.1.agency.roster.length,
        (out.1.agency.roster[i]).stress
            = min 100 ((g.agency.roster[i]).stress
                + pyTrunc ((m.difficulty : ℚ) * 10 * region.fear_mult))
        ∧ (out.1.agency.roster[i]).status = Status.available := by
  intro g region roll gh out m rest i h hm heq hflag
  have hlen : (markSelect g.agency.roster config.MAX_AGENTS_PER_MISSION).length
      = g.agency.roster.length := markSelect_length _ _
  have hi : i < (markSelect g.agency.roster config.MAX_AGENTS_PER_MISSION).length := by
    rw [hlen]; exact h
  have hflag' : ((markSelect g.agency.roster config.MAX_AGENTS_PER_MISSION)[i]).2 = true := by
    unfold selectedFlag at hflag
    rw [List.get?_eq_getElem?, List.getElem?_eq_getElem hi] at hflag
    exact hflag
  have hfst : ((markSelect g.agency.roster config.MAX_AGENTS_PER_MISSION)[i]).1
      = g.agency.roster[i] := markSelect_getElem_fst _ _ i hi h
  have havail : (g.agency.roster[i]).status = Status.available := by
    rw [← hfst]; exact markSelect_flag_avail _ _ i hi hflag'
  have hmem : g.agency.roster[i] ∈ g.agency.get_available_agents := by
    unfold Agency.get_available_agents
    exact List.mem_filter.mpr ⟨List.getElem_mem _, by simp [havail]⟩
  have hne : g.agency.get_available_agents.take config.MAX_AGENTS_PER_MISSION ≠ [] := by
    intro hnil
    rw [List.take_eq_nil_iff] at hnil
    rcases hnil with hk | hl
    · exact absurd hk (by decide)
    · rw [hl] at hmem
      cases hmem
  rcases run_mission_cases g region roll gh m rest hm with ⟨ha, _⟩ | ⟨ha, out', heqB, hroster⟩
  · exact absurd ha hne
  · rw [heqB] at heq
    rw [Option.some.inj heq] at hroster
    have h2 : i < out.1.agency.roster.length := by
      rw [hroster, List.length_map, hlen]; exact h
    refine ⟨h2, ?_⟩
    have hget : out.1.agency.roster[i]
        = missionAgentUpdate m.difficulty
            (pyTrunc ((m.difficulty : ℚ) * 10 * region.fear_mult))
            (decide (roll < success_chance
              (((g.agency.get_available_agents.take
                  config.MAX_AGENTS_PER_MISSION).map Agent.get_total_stats).sum)
              m.difficulty))
            (g.agency.roster[i]) := by
      simp only [hroster, List.getElem_map, hflag', if_true, hfst]
    rw [hget]
    exact ⟨(missionAgentUpdate_spec _ _ _ _).1, (missionAgentUpdate_spec _ _ _ _).2⟩

/-- Witness for C1 at the concrete one-agent state exG1: the selected
agent's stress follows the clamped formula and its status ends available. -/
theorem mission_stress_no_breakdown_witness :
    ∃ h2 : 0 < exRun1.1.agency.roster.length,
      (exRun1.1.agency.roster.get ⟨0, h2⟩).stress
          = min 100 ((exG1.agency.roster.get ⟨0, by decide⟩).stress
              + pyTrunc ((exMission1.difficulty : ℚ) * 10 * exRegion1.fear_mult))
      ∧ (exRun1.1.agency.roster.get ⟨0, h2⟩).status = Status.available :=
  mission_stress_no_breakdown exG1 exRegion1 1 exGhost1 exRun1 exMission1 [] 0
    (by decide) rfl rfl (by decide)

/-- C1 counterexample: resolving the difficulty-1 mission with the
stress-95 agent drives its stress to 100, yet the breakdown branch never
runs — the agent ends available with stress 100, neither deceased nor
resting with stress 80. -/
theorem mission_stress_breakdown_cex :
    (exRun1.1.agency.roster.map fun a => (a.stress, a.status))
        = [((100 : Int), Status.available)]
    ∧ ¬(Status.available = Status.deceased
        ∨ (Status.available = Status.resting ∧ (100 : Int) = 80)) := by
  constructor
  · have hinc : pyTrunc ((exMission1.difficulty : ℚ) * 10 * exRegion1.fear_mult) = 10 := by
      have hd0 : exMission1.difficulty = 1 := rfl
      have hf : exRegion1.fear_mult = 1 := rfl
      rw [hd0, hf]
      have hq : (((1 : Nat) : ℚ) * 10 * 1) = 10 := by push_cast; norm_num
      unfold pyTrunc
      rw [hq]
      simp [Rat.num_ofNat, Rat.den_ofNat]
    rcases run_mission_cases exG1 exRegion1 1 exGhost1 exMission1 [] rfl with
      ⟨ha, _⟩ | ⟨ha, out', heqB, hroster⟩
    · exact absurd ha (by decide)
    · have hrun : exRun1 = out' := by
        unfold exRun1
        rw [heqB]
        rfl
      have hmark : markSelect exG1.agency.roster config.MAX_AGENTS_PER_MISSION
          = [(exAgent95, true)] := by decide
      rw [hmark] at hroster
      simp only [List.map_cons, List.map_nil, if_true] at hroster
      rw [hrun, hroster]
      simp only [List.map_cons, List.map_nil]
      rw [(missionAgentUpdate_spec _ _ _ _).1, (missionAgentUpdate_spec _ _ _ _).2, hinc]
      decide
  · decide

/-- C10: invoking mission resolution on a region holding a mission when no
agent is available changes nothing but the log: the returned state is the
input state with exactly one no-agents entry appended, and the region
(mission included) is returned untouched. -/
theorem run_mission_no_agents_frame :
    ∀ (g : GameSt) (region : Region) (roll : ℚ) (gh : Ghost) (m : Mission)
      (rest : List Mission),
      region.missions = m :: rest →
      g.agency.get_available_agents = [] →
      run_mission g region roll gh =
        some ({ g with agency := { g.agency with mission_log :=
                  g.agency.mission_log ++ [LogEntry.noAgents g.day region.name] } },
              region) := by
  intro g region roll gh m rest hm hav
  rcases run_mission_cases g region roll gh m rest hm with ⟨_, heq⟩ | ⟨ha, _⟩
  · exact heq
  · exact absurd (by rw [hav]; rfl) ha

/-- Witness for C10 at a concrete agency with an empty roster and a
region holding a mission. -/
theorem run_mission_no_agents_frame_witness :
    run_mission exG10 exRegion1 1 exGhost1 =
      some ({ exG10 with agency := { exG10.agency with mission_log :=
                exG10.agency.mission_log ++ [LogEntry.noAgents exG10.day exRegion1.name] } },
            exRegion1) :=
  run_mission_no_agents_frame exG10 exRegion1 1 exGhost1 exMission1 [] rfl rfl

end GhostAgency
